import Mathlib

/-!
Verification development for the authentication / session-lifecycle subsystem
of the Employee-performance-Tracker backend.

The definitions below are a shallow embedding of:
  * `Backend/app/core/security.py`      (JWT issue / decode),
  * `Backend/app/services/session_service.py`
      (Redis-backed blacklist, session registry, refresh rotation,
       login-attempt throttling),
  * `Backend/app/core/dependencies.py`  (`get_current_user` request gate),
  * `Backend/app/api/v1/auth.py`        (login / refresh / logout /
       change-password endpoints).

Modelling conventions:
  * Time is `Nat` seconds; every Redis `SETEX` stores an absolute expiry
    (write-time + ttl) and a key is alive at `now` iff `now < expiry`,
    matching Redis TTL semantics at one-second granularity.
  * The Redis connection is modelled as available (`is_connected = True`):
    all `if not self.is_connected` early-return branches of the source are
    taken in the connected state, which is the state every claim is about.
  * `uuid.uuid4()` jti generation and the client address / user agent are
    supplied by the caller as parameters.
  * JWT payloads are finite string-keyed dictionaries (`Payload`); a signed
    token is its payload together with the signing secret, and `jwtDecode`
    succeeds exactly when the secret matches and the `exp` claim has not
    passed, as `jose.jwt.decode` does in `decode_token`.
-/

/-- A JSON claim value as used in token payloads: the source only ever
stores strings and integers in them. -/
inductive JVal where
  | str (s : String)
  | num (n : Nat)
deriving DecidableEq

/-- A token payload: a Python dict from claim names to values. -/
abbrev Payload := List (String × JVal)

/-- `d.get(k)` on a Python dict. -/
def dictLookup (p : Payload) (k : String) : Option JVal :=
  (p.find? (fun e => e.1 == k)).map (fun e => e.2)

/-- `d[k] = v` / `d.update({k: v})` on a Python dict: the new binding wins
and the key occurs at most once afterwards. -/
def dictSet (p : Payload) (k : String) (v : JVal) : Payload :=
  (k, v) :: p.filter (fun e => !(e.1 == k))

/-- Python `==` on dicts (with unique keys): same key set, same values. -/
def dictEq (p q : Payload) : Bool :=
  p.all (fun e => dictLookup q e.1 == some e.2) &&
  q.all (fun e => dictLookup p e.1 == some e.2)

/-- Python truthiness of a claim value (`if jti:`, `if user_id:`). -/
def truthy : JVal → Bool
  | .str s => !(s == "")
  | .num n => !(n == 0)

/-- Decimal digit accumulator for `strToNat`. -/
def natOfChars : List Char → Nat → Option Nat
  | [], acc => some acc
  | c :: cs, acc =>
      if '0' ≤ c ∧ c ≤ '9' then natOfChars cs (acc * 10 + (c.toNat - '0'.toNat))
      else none

/-- Parse a plain decimal string, the shape `str(user.id)` produces. -/
def strToNat (s : String) : Option Nat :=
  match s.data with
  | [] => none
  | l => natOfChars l 0

/-- `int(v)` on a claim value, as applied to the `sub` claim. A non-numeric
string raises an uncaught `ValueError` in the source; issued tokens always
carry `sub = str(user.id)`, so that branch is mapped to `none` here. -/
def subToNat : JVal → Option Nat
  | .str s => strToNat s
  | .num n => some n

/-- `payload.get("jti")` followed by the source's truthiness test and the
`str(arg)` conversion `_build_key` applies to key parts. -/
def getJti (p : Payload) : Option String :=
  match dictLookup p "jti" with
  | some (.str s) => if s == "" then none else some s
  | some (.num n) => if n == 0 then none else some (toString n)
  | none => none

/-- `payload.get("version", 0) != user.token_version`, negated. A
non-integer `version` claim never equals the integer user version in
Python, hence `false` in that case. -/
def versionMatches (p : Payload) (tokenVersion : Nat) : Bool :=
  match dictLookup p "version" with
  | some (.num n) => n == tokenVersion
  | some (.str _) => false
  | none => 0 == tokenVersion

/-- A signed JWT: payload plus the secret it was signed with.  The claims
are only integrity-protected, never encrypted, so the payload is carried
in the clear. -/
structure Token where
  payload : Payload
  key : String
deriving DecidableEq

/-- Configuration: `ACCESS_TOKEN_EXPIRE_MINUTES = 60` (`config.py`). -/
def ACCESS_TOKEN_EXPIRE_MINUTES : Nat := 60

/-- Configuration: `REFRESH_TOKEN_EXPIRE_DAYS = 30` (`config.py`). -/
def REFRESH_TOKEN_EXPIRE_DAYS : Nat := 30

/-- `SessionService.TTL_ACCESS_TOKEN = 60 * 60`. -/
def TTL_ACCESS_TOKEN : Nat := 60 * 60

/-- `SessionService.TTL_REFRESH_TOKEN = 60 * 60 * 24 * 30`. -/
def TTL_REFRESH_TOKEN : Nat := 60 * 60 * 24 * 30

/-- `SessionService.TTL_LOGIN_ATTEMPTS = 60 * 15`. -/
def TTL_LOGIN_ATTEMPTS : Nat := 60 * 15

/-- `SessionService.MAX_LOGIN_ATTEMPTS = 5`. -/
def MAX_LOGIN_ATTEMPTS : Nat := 5

/-- `jwt.encode(payload, key, algorithm)` — signing binds payload to key. -/
def jwtEncode (p : Payload) (key : String) : Token := ⟨p, key⟩

/-- `jose.jwt.decode` as used by `decode_token`: signature check against the
server secret, then the `exp` claim check.  A token with no `exp` claim is
accepted without an expiry check; a non-numeric `exp` is a claims error. -/
def jwtDecode (t : Token) (key : String) (now : Nat) : Option Payload :=
  if t.key == key then
    match dictLookup t.payload "exp" with
    | some (.num e) => if now < e then some t.payload else none
    | some (.str _) => none
    | none => some t.payload
  else none

/-- `create_access_token(data, expires_delta, jti)`: copies `data` and
updates it with `exp`, `jti`, `iat` and `type = "access"` before signing.
`expiresDelta` is in seconds; `none` means the configured default. -/
def create_access_token (data : Payload) (expiresDelta : Option Nat)
    (jti : String) (now : Nat) (secret : String) : Token :=
  let expire := now + expiresDelta.getD (ACCESS_TOKEN_EXPIRE_MINUTES * 60)
  jwtEncode
    (dictSet (dictSet (dictSet (dictSet data "exp" (.num expire))
      "jti" (.str jti)) "iat" (.num now)) "type" (.str "access")) secret

/-- `create_refresh_token(data, jti)`: like the access variant but with the
30-day expiry and `type = "refresh"`. -/
def create_refresh_token (data : Payload) (jti : String) (now : Nat)
    (secret : String) : Token :=
  let expire := now + REFRESH_TOKEN_EXPIRE_DAYS * 24 * 60 * 60
  jwtEncode
    (dictSet (dictSet (dictSet (dictSet data "exp" (.num expire))
      "jti" (.str jti)) "iat" (.num now)) "type" (.str "refresh")) secret

/-- `get_token_expiry(payload)`: the `exp` claim when truthy. -/
def get_token_expiry (p : Payload) : Option Nat :=
  match dictLookup p "exp" with
  | some (.num e) => if e == 0 then none else some e
  | _ => none

/-- One stored session record, as serialized by `create_session`. -/
structure SessionData where
  session_id : String
  user_id : Nat
  jti : String
  device_info : String
  ip_address : String
  user_agent : String
  created_at : Nat
  last_activity : Nat
deriving DecidableEq

/-- The Redis keyspace used by `SessionService`, one field per key
namespace (`token:blacklist:*`, `session:<uid>:<sid>`, `refresh:used:*`,
`login:attempts:*`).  Each entry stores its absolute expiry time. -/
structure Store where
  blacklist : List (String × Nat)
  sessions : List ((Nat × String) × SessionData × Nat)
  refreshUsed : List (String × Nat)
  loginAttempts : List (String × Nat × Nat)
deriving DecidableEq

/-- The empty keyspace. -/
def emptyStore : Store := ⟨[], [], [], []⟩

/-- Live `EXISTS` on the blacklist namespace. -/
def blLookup (s : Store) (j : String) (now : Nat) : Bool :=
  s.blacklist.any (fun e => e.1 == j && decide (now < e.2))

/-- `SETEX` on the blacklist namespace: overwrites value and TTL. -/
def blSet (s : Store) (j : String) (expiry : Nat) : Store :=
  { s with blacklist := (j, expiry) :: s.blacklist.filter (fun e => !(e.1 == j)) }

/-- `SETEX` on the session namespace. -/
def sessSet (s : Store) (k : Nat × String) (v : SessionData) (expiry : Nat) : Store :=
  { s with sessions := (k, v, expiry) :: s.sessions.filter (fun e => !(e.1 == k)) }

/-- `DEL` of one session key. -/
def sessDel (s : Store) (k : Nat × String) : Store :=
  { s with sessions := s.sessions.filter (fun e => !(e.1 == k)) }

/-- `DEL` of every `session:<uid>:*` key returned by `KEYS`.  `KEYS` only
lists live keys, but removing the expired ones as well is observationally
identical since every read is liveness-filtered. -/
def sessDelAllUser (s : Store) (uid : Nat) : Store :=
  { s with sessions := s.sessions.filter (fun e => !(e.1.1 == uid)) }

/-- Live `GET` of a session record. -/
def sessGet (s : Store) (k : Nat × String) (now : Nat) : Option SessionData :=
  match s.sessions.find? (fun e => e.1 == k) with
  | some e => if now < e.2.2 then some e.2.1 else none
  | none => none

/-- `SETEX` on the refresh-used namespace. -/
def ruSet (s : Store) (j : String) (expiry : Nat) : Store :=
  { s with refreshUsed := (j, expiry) :: s.refreshUsed.filter (fun e => !(e.1 == j)) }

/-- Live `EXISTS` on the refresh-used namespace. -/
def ruLookup (s : Store) (j : String) (now : Nat) : Bool :=
  s.refreshUsed.any (fun e => e.1 == j && decide (now < e.2))

/-- Live `GET` of a login-attempt counter together with its stored expiry. -/
def laGet (s : Store) (id : String) (now : Nat) : Option (Nat × Nat) :=
  match s.loginAttempts.find? (fun e => e.1 == id) with
  | some e => if now < e.2.2 then some e.2 else none
  | none => none

/-- `SETEX` / `INCR` target on the login-attempts namespace. -/
def laSet (s : Store) (id : String) (count expiry : Nat) : Store :=
  { s with loginAttempts := (id, count, expiry) :: s.loginAttempts.filter (fun e => !(e.1 == id)) }

/-- `DEL` of a login-attempt counter. -/
def laDel (s : Store) (id : String) : Store :=
  { s with loginAttempts := s.loginAttempts.filter (fun e => !(e.1 == id)) }

/-- `SessionService.blacklist_token(jti, ttl)`: `ttl = ttl or TTL_ACCESS_TOKEN`
(Python `or`, so an explicit 0 also falls back to the default), then
`SETEX token:blacklist:<jti> ttl "revoked"`. -/
def blacklist_token (jti : String) (ttl : Option Nat) (now : Nat) (s : Store) :
    Bool × Store :=
  let t := match ttl with
    | none => TTL_ACCESS_TOKEN
    | some v => if v == 0 then TTL_ACCESS_TOKEN else v
  (true, blSet s jti (now + t))

/-- `SessionService.is_token_blacklisted(jti)`: live `EXISTS`. -/
def is_token_blacklisted (jti : String) (now : Nat) (s : Store) : Bool :=
  blLookup s jti now

/-- Leading-whitespace skip of Python `str.split()`. -/
def skipSpaces : List Char → List Char
  | [] => []
  | c :: cs => if c = ' ' then skipSpaces cs else c :: cs

/-- First-token extraction of Python `str.split()[0]`. -/
def takeTok : List Char → List Char
  | [] => []
  | c :: cs => if c = ' ' then [] else c :: takeTok cs

/-- `user_agent.split()[0] if user_agent != "Unknown" else "Unknown"`:
first whitespace-delimited token of the user agent (space is the only
separator occurring in the modelled inputs). -/
def deviceOf (userAgent : String) : String :=
  if userAgent == "Unknown" then "Unknown"
  else ⟨takeTok (skipSpaces userAgent.data)⟩

/-- `SessionService.create_session`: serializes the record and
`SETEX session:<uid>:<jti>` with the access-token TTL; the session id is
the access token's jti. -/
def create_session (user_id : Nat) (jti : String) (device_info ip_address
    user_agent : String) (now : Nat) (s : Store) : String × Store :=
  let sd : SessionData :=
    ⟨jti, user_id, jti, device_info, ip_address, user_agent, now, now⟩
  (jti, sessSet s (user_id, jti) sd (now + TTL_ACCESS_TOKEN))

/-- `SessionService.get_session`. -/
def get_session (user_id : Nat) (session_id : String) (now : Nat) (s : Store) :
    Option SessionData :=
  sessGet s (user_id, session_id) now

/-- `SessionService.update_session_activity`: re-`SETEX` the record with a
fresh `last_activity` and the full access-token TTL. -/
def update_session_activity (user_id : Nat) (session_id : String) (now : Nat)
    (s : Store) : Bool × Store :=
  match get_session user_id session_id now s with
  | some sd =>
      (true, sessSet s (user_id, session_id) { sd with last_activity := now }
        (now + TTL_ACCESS_TOKEN))
  | none => (false, s)

/-- Insertion step for the newest-first sort in `get_user_sessions`. -/
def insertByCreated (sd : SessionData) : List SessionData → List SessionData
  | [] => [sd]
  | x :: xs =>
      if x.created_at ≤ sd.created_at then sd :: x :: xs
      else x :: insertByCreated sd xs

/-- `sessions.sort(key=created_at, reverse=True)`. -/
def sortByCreatedDesc : List SessionData → List SessionData
  | [] => []
  | x :: xs => insertByCreated x (sortByCreatedDesc xs)

/-- `SessionService.get_user_sessions`: every live `session:<uid>:*` record,
newest first.  (The source also attaches the remaining TTL for display;
that field is not part of the record here.) -/
def get_user_sessions (user_id : Nat) (now : Nat) (s : Store) :
    List SessionData :=
  sortByCreatedDesc
    ((s.sessions.filter
        (fun e => e.1.1 == user_id && decide (now < e.2.2))).map
      (fun e => e.2.1))

/-- `SessionService.revoke_session`: read the record, blacklist its jti with
the default TTL, then delete the key; returns `True` even when the record
was already gone. -/
def revoke_session (user_id : Nat) (session_id : String) (now : Nat)
    (s : Store) : Bool × Store :=
  let s1 := match get_session user_id session_id now s with
    | some sd => (blacklist_token sd.jti none now s).2
    | none => s
  (true, sessDel s1 (user_id, session_id))

/-- The `for session in sessions:` loop of `revoke_all_user_sessions`:
blacklist each record's jti (every record has one) and count them. -/
def blacklistAll (l : List SessionData) (now : Nat) (s : Store) : Nat × Store :=
  match l with
  | [] => (0, s)
  | sd :: rest =>
      let s1 := (blacklist_token sd.jti none now s).2
      let (c, s2) := blacklistAll rest now s1
      (c + 1, s2)

/-- `SessionService.revoke_all_user_sessions`: blacklist every live
session's jti, then delete every `session:<uid>:*` key; returns the count. -/
def revoke_all_user_sessions (user_id : Nat) (now : Nat) (s : Store) :
    Nat × Store :=
  let (count, s1) := blacklistAll (get_user_sessions user_id now s) now s
  (count, sessDelAllUser s1 user_id)

/-- `SessionService.mark_refresh_token_used`:
`SETEX refresh:used:<jti> TTL_REFRESH_TOKEN "used"`. -/
def mark_refresh_token_used (jti : String) (now : Nat) (s : Store) :
    Bool × Store :=
  (true, ruSet s jti (now + TTL_REFRESH_TOKEN))

/-- `SessionService.is_refresh_token_used`: live `EXISTS` — a plain read,
with no accompanying write. -/
def is_refresh_token_used (jti : String) (now : Nat) (s : Store) : Bool :=
  ruLookup s jti now

/-- `SessionService.record_login_attempt`: success deletes the counter;
the first failure of a window does `SETEX key TTL_LOGIN_ATTEMPTS 1`; a
failure while the key is live does `INCR`, which in Redis leaves the
key's TTL untouched. -/
def record_login_attempt (identifier : String) (success : Bool) (now : Nat)
    (s : Store) : Nat × Store :=
  if success then (0, laDel s identifier)
  else
    match laGet s identifier now with
    | none => (1, laSet s identifier 1 (now + TTL_LOGIN_ATTEMPTS))
    | some (c, expiry) => (c + 1, laSet s identifier (c + 1) expiry)

/-- `SessionService.get_login_attempts`. -/
def get_login_attempts (identifier : String) (now : Nat) (s : Store) : Nat :=
  match laGet s identifier now with
  | some (c, _) => c
  | none => 0

/-- `SessionService.is_login_blocked`: `attempts >= MAX_LOGIN_ATTEMPTS`. -/
def is_login_blocked (identifier : String) (now : Nat) (s : Store) : Bool :=
  MAX_LOGIN_ATTEMPTS ≤ get_login_attempts identifier now s

/-- `SessionService.get_login_block_ttl`: 0 when not blocked, otherwise the
counter key's remaining TTL clamped at 0. -/
def get_login_block_ttl (identifier : String) (now : Nat) (s : Store) : Nat :=
  if is_login_blocked identifier now s then
    match laGet s identifier now |>.map (fun e => e.2 - now) with
    | some r => r
    | none => 0
  else 0

/-- The relevant fields of the `users` table row consumed by the auth
subsystem (`app/models/user.py`). -/
structure UserRec where
  id : Nat
  user_name : String
  password_hash : String
  user_role : String
  org_id : Nat
  token_version : Nat
  is_active : Bool
deriving DecidableEq

/-- `db.query(User).filter(User.id == uid).first()`. -/
def findById (db : List UserRec) (uid : Nat) : Option UserRec :=
  db.find? (fun u => u.id == uid)

/-- `db.query(User).filter(User.user_name == name).first()`. -/
def findByUsername (db : List UserRec) (name : String) : Option UserRec :=
  db.find? (fun u => u.user_name == name)

/-- The typed authorization failures raised by the subsystem, one
constructor per distinct `HTTPException` the source raises. -/
inductive AuthError where
  | invalidToken
  | revokedToken
  | userNotFound
  | inactiveUser
  | versionStale
  | invalidTokenType
  | refreshReuseDetected
  | userNotFoundOrInactive
  | loginLocked (remaining : Nat)
  | invalidCredentials
  | accountDeactivated
deriving DecidableEq

deriving instance DecidableEq for Except

/-- `Except.isOk` as a plain boolean. -/
def exceptOk : Except AuthError α → Bool
  | .ok _ => true
  | .error _ => false

/-- The `token_data` dict built by `login` / `refresh_token` before token
creation. -/
def token_data (u : UserRec) : Payload :=
  [("sub", .str (toString u.id)), ("role", .str u.user_role),
   ("userName", .str u.user_name), ("orgId", .num u.org_id),
   ("version", .num u.token_version)]

/-- `get_current_user` (`app/core/dependencies.py`): decode → blacklist
check → user lookup → active check → token-version check → best-effort
session touch.  The returned store reflects the touch. -/
def get_current_user (tok : Token) (secret : String) (db : List UserRec)
    (now : Nat) (s : Store) : Except AuthError UserRec × Store :=
  match jwtDecode tok secret now with
  | none => (.error .invalidToken, s)
  | some payload =>
    match getJti payload with
    | some jti =>
        if is_token_blacklisted jti now s then (.error .revokedToken, s)
        else
          match dictLookup payload "sub" with
          | none => (.error .invalidToken, s)
          | some sv =>
            match subToNat sv with
            | none => (.error .invalidToken, s)
            | some uid =>
              match findById db uid with
              | none => (.error .userNotFound, s)
              | some u =>
                if !u.is_active then (.error .inactiveUser, s)
                else if !(versionMatches payload u.token_version) then
                  (.error .versionStale, s)
                else (.ok u, (update_session_activity u.id jti now s).2)
    | none =>
        match dictLookup payload "sub" with
        | none => (.error .invalidToken, s)
        | some sv =>
          match subToNat sv with
          | none => (.error .invalidToken, s)
          | some uid =>
            match findById db uid with
            | none => (.error .userNotFound, s)
            | some u =>
              if !u.is_active then (.error .inactiveUser, s)
              else if !(versionMatches payload u.token_version) then
                (.error .versionStale, s)
              else (.ok u, s)

/-- `get_current_active_user`: the gate plus a second `is_active` check. -/
def get_current_active_user (tok : Token) (secret : String)
    (db : List UserRec) (now : Nat) (s : Store) :
    Except AuthError UserRec × Store :=
  match get_current_user tok secret db now s with
  | (.ok u, s1) => if !u.is_active then (.error .inactiveUser, s1) else (.ok u, s1)
  | (.error e, s1) => (.error e, s1)

/-- `login` (`app/api/v1/auth.py`): lockout check first (no credential
check when locked), then user lookup and password verification with
failure recording, then success recording, token issuance and session
creation.  `verify` is the external bcrypt check; the two fresh jtis are
the caller-supplied uuid values.  (The `last_login` timestamp update on
the user row is not part of the auth state and is omitted.) -/
def login (userName password clientIp userAgent : String)
    (db : List UserRec) (verify : String → String → Bool) (secret : String)
    (accessJti refreshJti : String) (now : Nat) (s : Store) :
    Except AuthError ((Token × Token) × UserRec) × Store :=
  let identifier := userName ++ ":" ++ clientIp
  if is_login_blocked identifier now s then
    (.error (.loginLocked (get_login_block_ttl identifier now s)), s)
  else
    match findByUsername db userName with
    | none => (.error .invalidCredentials,
        (record_login_attempt identifier false now s).2)
    | some user =>
      if !(verify password user.password_hash) then
        (.error .invalidCredentials,
          (record_login_attempt identifier false now s).2)
      else if !user.is_active then (.error .accountDeactivated, s)
      else
        let s1 := (record_login_attempt identifier true now s).2
        let accessToken := create_access_token (token_data user) none
          accessJti now secret
        let refreshToken := create_refresh_token (token_data user)
          refreshJti now secret
        let s2 := (create_session user.id accessJti (deviceOf userAgent)
          clientIp userAgent now s1).2
        (.ok ((accessToken, refreshToken), user), s2)

/-- The part of the `refresh_token` endpoint that runs after the single
store read of the reuse check: `usedObserved` is the value that read
returned.  Separating the read makes the source's read-then-write
structure of the consume step explicit. -/
def refreshAfterCheck (usedObserved : Bool) (payload : Payload)
    (secret : String) (db : List UserRec) (newAccessJti newRefreshJti
    clientIp userAgent : String) (now : Nat) (s : Store) :
    Except AuthError (Token × Token) × Store :=
  match getJti payload with
  | some jti =>
    if usedObserved then
      let s1 := match dictLookup payload "sub" with
        | some sv =>
          if truthy sv then
            match subToNat sv with
            | some uid => (revoke_all_user_sessions uid now s).2
            | none => s
          else s
        | none => s
      (.error .refreshReuseDetected, s1)
    else
      match dictLookup payload "sub" with
      | none => (.error .invalidToken, s)
      | some sv =>
        match subToNat sv with
        | none => (.error .invalidToken, s)
        | some uid =>
          match findById db uid with
          | none => (.error .userNotFoundOrInactive, s)
          | some user =>
            if !user.is_active then (.error .userNotFoundOrInactive, s)
            else if !(versionMatches payload user.token_version) then
              (.error .versionStale, s)
            else
              let s1 := (mark_refresh_token_used jti now s).2
              let accessToken := create_access_token (token_data user) none
                newAccessJti now secret
              let refreshToken := create_refresh_token (token_data user)
                newRefreshJti now secret
              let s2 := (create_session user.id newAccessJti
                (deviceOf userAgent) clientIp userAgent now s1).2
              (.ok (accessToken, refreshToken), s2)
  | none =>
      match dictLookup payload "sub" with
      | none => (.error .invalidToken, s)
      | some sv =>
        match subToNat sv with
        | none => (.error .invalidToken, s)
        | some uid =>
          match findById db uid with
          | none => (.error .userNotFoundOrInactive, s)
          | some user =>
            if !user.is_active then (.error .userNotFoundOrInactive, s)
            else if !(versionMatches payload user.token_version) then
              (.error .versionStale, s)
            else
              let accessToken := create_access_token (token_data user) none
                newAccessJti now secret
              let refreshToken := create_refresh_token (token_data user)
                newRefreshJti now secret
              let s2 := (create_session user.id newAccessJti
                (deviceOf userAgent) clientIp userAgent now s).2
              (.ok (accessToken, refreshToken), s2)

/-- The `refresh_token` endpoint: decode, require `type == "refresh"`,
perform the single reuse-check read, and continue with
`refreshAfterCheck` on the observed value. -/
def refresh_token (tok : Token) (secret : String) (db : List UserRec)
    (newAccessJti newRefreshJti clientIp userAgent : String) (now : Nat)
    (s : Store) : Except AuthError (Token × Token) × Store :=
  match jwtDecode tok secret now with
  | none => (.error .invalidToken, s)
  | some payload =>
    if !(dictLookup payload "type" == some (.str "refresh")) then
      (.error .invalidTokenType, s)
    else
      let used := match getJti payload with
        | some jti => is_refresh_token_used jti now s
        | none => false
      refreshAfterCheck used payload secret db newAccessJti newRefreshJti
        clientIp userAgent now s

/-- The body of the `logout` handler, run after the dependency gate has
produced `current_user`: decode the same bearer token, and when it decodes
and carries a truthy jti, blacklist it with its remaining validity (when
positive) and revoke the matching session.  Decode failure is silently
ignored. -/
def logout_body (tok : Token) (secret : String) (currentUserId : Nat)
    (now : Nat) (s : Store) : Store :=
  match jwtDecode tok secret now with
  | none => s
  | some payload =>
    match getJti payload with
    | none => s
    | some jti =>
      let s1 := match get_token_expiry payload with
        | some e =>
            if decide (0 < e - now) then
              (blacklist_token jti (some (e - now)) now s).2
            else s
        | none => s
      (revoke_session currentUserId jti now s1).2

/-- The `logout` endpoint: the `get_current_active_user` dependency runs
first on the same bearer token, then the handler body. -/
def logout_endpoint (tok : Token) (secret : String) (db : List UserRec)
    (now : Nat) (s : Store) : Except AuthError Unit × Store :=
  match get_current_active_user tok secret db now s with
  | (.ok u, s1) => (.ok (), logout_body tok secret u.id now s1)
  | (.error e, s1) => (.error e, s1)

/-- The `change_password` handler body (after the gate): verify the old
password, reject a reused or short new password, then bump
`token_version`, commit, and revoke every session.  `hash` is the external
bcrypt hashing.  Returns the updated user row and the revoked count. -/
def change_password (currentUser : UserRec) (oldPassword newPassword : String)
    (verify : String → String → Bool) (hash : String → String) (now : Nat)
    (s : Store) : Except AuthError (UserRec × Nat) × Store :=
  if !(verify oldPassword currentUser.password_hash) then
    (.error .invalidCredentials, s)
  else if verify newPassword currentUser.password_hash then
    (.error .invalidCredentials, s)
  else if newPassword.length < 8 then
    (.error .invalidCredentials, s)
  else
    let updated := { currentUser with
      password_hash := hash newPassword,
      token_version := currentUser.token_version + 1 }
    let (count, s1) := revoke_all_user_sessions currentUser.id now s
    (.ok (updated, count), s1)

section KVLemmas

variable {α : Type} {β : Type} [BEq α] [LawfulBEq α]

/-- Removing every entry of key `j` leaves nothing for `find?` at `j`. -/
theorem kv_find_filter_self (l : List (α × β)) (j : α) :
    (l.filter (fun e => !(e.1 == j))).find? (fun e => e.1 == j) = none := by
  induction l with
  | nil => rfl
  | cons x xs ih =>
    cases hx : (x.1 == j) with
    | true =>
      rw [List.filter_cons]
      simp only [hx, Bool.not_true]
      rw [if_neg Bool.false_ne_true]
      exact ih
    | false =>
      rw [List.filter_cons]
      simp only [hx, Bool.not_false]
      rw [if_pos trivial]
      rw [List.find?_cons_of_neg _ (by simpa using hx)]
      exact ih

/-- Removing every entry of key `j` does not change `find?` at `j' ≠ j`. -/
theorem kv_find_filter_ne (l : List (α × β)) (j j' : α)
    (h : (j' == j) = false) :
    (l.filter (fun e => !(e.1 == j))).find? (fun e => e.1 == j') =
      l.find? (fun e => e.1 == j') := by
  have hne : ¬ j' = j := by simpa using h
  induction l with
  | nil => rfl
  | cons x xs ih =>
    cases hx : (x.1 == j) with
    | true =>
      have hx1 : x.1 = j := by simpa using hx
      have hx' : (x.1 == j') = false := by
        rw [hx1]
        simp only [beq_eq_false_iff_ne, ne_eq]
        exact fun hh => hne hh.symm
      rw [List.filter_cons]
      simp only [hx, Bool.not_true]
      rw [if_neg Bool.false_ne_true]
      rw [List.find?_cons_of_neg _ (by simpa using hx')]
      exact ih
    | false =>
      rw [List.filter_cons]
      simp only [hx, Bool.not_false]
      rw [if_pos trivial]
      cases hx' : (x.1 == j') with
      | true =>
        rw [List.find?_cons_of_pos _ (by simpa using hx'),
          List.find?_cons_of_pos _ (by simpa using hx')]
      | false =>
        rw [List.find?_cons_of_neg _ (by simpa using hx'),
          List.find?_cons_of_neg _ (by simpa using hx')]
        exact ih

/-- Removing every entry of key `j` falsifies `any` predicates keyed at `j`. -/
theorem kv_any_filter_self (l : List (α × β)) (j : α) (f : β → Bool) :
    (l.filter (fun e => !(e.1 == j))).any (fun e => e.1 == j && f e.2) =
      false := by
  induction l with
  | nil => rfl
  | cons x xs ih =>
    cases hx : (x.1 == j) with
    | true =>
      rw [List.filter_cons]
      simp only [hx, Bool.not_true]
      rw [if_neg Bool.false_ne_true]
      exact ih
    | false =>
      rw [List.filter_cons]
      simp only [hx, Bool.not_false]
      rw [if_pos trivial]
      rw [List.any_cons]
      simp only [hx, Bool.false_and, Bool.false_or]
      exact ih

/-- Removing every entry of key `j` does not change `any` keyed at `j' ≠ j`. -/
theorem kv_any_filter_ne (l : List (α × β)) (j j' : α)
    (h : (j' == j) = false) (f : β → Bool) :
    (l.filter (fun e => !(e.1 == j))).any (fun e => e.1 == j' && f e.2) =
      l.any (fun e => e.1 == j' && f e.2) := by
  have hne : ¬ j' = j := by simpa using h
  induction l with
  | nil => rfl
  | cons x xs ih =>
    cases hx : (x.1 == j) with
    | true =>
      have hx1 : x.1 = j := by simpa using hx
      have hx' : (x.1 == j') = false := by
        rw [hx1]
        simp only [beq_eq_false_iff_ne, ne_eq]
        exact fun hh => hne hh.symm
      rw [List.filter_cons]
      simp only [hx, Bool.not_true]
      rw [if_neg Bool.false_ne_true]
      rw [List.any_cons]
      simp only [hx', Bool.false_and, Bool.false_or]
      exact ih
    | false =>
      rw [List.filter_cons]
      simp only [hx, Bool.not_false]
      rw [if_pos trivial]
      rw [List.any_cons, List.any_cons, ih]

end KVLemmas

/-- `dictSet` followed by `dictLookup`, pointwise. -/
theorem dictLookup_dictSet (p : Payload) (k k' : String) (v : JVal) :
    dictLookup (dictSet p k v) k' =
      if k' = k then some v else dictLookup p k' := by
  by_cases h : k' = k
  · subst h
    simp only [dictLookup, dictSet, if_pos rfl]
    rw [List.find?_cons_of_pos _ (by simp)]
    rfl
  · have hb : (k' == k) = false := by simpa using h
    have hb2 : (k == k') = false := by
      simp only [beq_eq_false_iff_ne, ne_eq]
      exact fun hh => h hh.symm
    rw [if_neg h]
    simp only [dictLookup, dictSet]
    rw [List.find?_cons_of_neg _ (by simpa using hb2)]
    rw [kv_find_filter_ne _ _ _ hb]

/-- `blSet` followed by `blLookup`, pointwise. -/
theorem blLookup_blSet (s : Store) (j j' : String) (ex now : Nat) :
    blLookup (blSet s j ex) j' now =
      if j' = j then decide (now < ex) else blLookup s j' now := by
  by_cases h : j' = j
  · subst h
    simp only [blLookup, blSet, if_pos rfl]
    rw [List.any_cons]
    simp only [beq_self_eq_true, Bool.true_and]
    rw [kv_any_filter_self s.blacklist j' (fun b => decide (now < b))]
    simp
  · have hb : (j' == j) = false := by simpa using h
    have hb2 : (j == j') = false := by
      simp only [beq_eq_false_iff_ne, ne_eq]
      exact fun hh => h hh.symm
    rw [if_neg h]
    simp only [blLookup, blSet]
    rw [List.any_cons]
    simp only [hb2, Bool.false_and, Bool.false_or]
    rw [kv_any_filter_ne s.blacklist j j' hb (fun b => decide (now < b))]

/-- A live blacklist entry survives any later `blSet` with a live expiry. -/
theorem blLookup_mono_set (s : Store) (j j' : String) (ex now : Nat)
    (hex : now < ex) (h : blLookup s j' now = true) :
    blLookup (blSet s j ex) j' now = true := by
  rw [blLookup_blSet]
  split
  · simpa using hex
  · exact h

/-- The default blacklist TTL branch of `blacklist_token`. -/
theorem blacklist_token_none (j : String) (now : Nat) (s : Store) :
    blacklist_token j none now s = (true, blSet s j (now + TTL_ACCESS_TOKEN)) :=
  rfl

/-- The explicit-TTL branch of `blacklist_token` (nonzero TTL). -/
theorem blacklist_token_some (j : String) (t now : Nat) (s : Store)
    (h : ¬ t = 0) :
    blacklist_token j (some t) now s = (true, blSet s j (now + t)) := by
  simp [blacklist_token, h]

theorem ttl_access_pos : 0 < TTL_ACCESS_TOKEN := by decide

/-- `blacklistAll` only writes to the blacklist namespace. -/
theorem blacklistAll_sessions (l : List SessionData) (now : Nat) (s : Store) :
    ((blacklistAll l now s).2).sessions = s.sessions := by
  induction l generalizing s with
  | nil => rfl
  | cons x xs ih =>
    rcases hb : blacklistAll xs now ((blacklist_token x.jti none now s).2)
      with ⟨c, s2⟩
    simp only [blacklistAll, hb]
    have h := ih ((blacklist_token x.jti none now s).2)
    rw [hb] at h
    exact h.trans rfl

/-- A live blacklist entry survives `blacklistAll`. -/
theorem blacklistAll_preserves (l : List SessionData) (now : Nat) (s : Store)
    (j : String) (h : blLookup s j now = true) :
    blLookup ((blacklistAll l now s).2) j now = true := by
  induction l generalizing s with
  | nil => exact h
  | cons x xs ih =>
    rcases hb : blacklistAll xs now ((blacklist_token x.jti none now s).2)
      with ⟨c, s2⟩
    simp only [blacklistAll, hb]
    have h1 : blLookup ((blacklist_token x.jti none now s).2) j now = true := by
      rw [blacklist_token_none]
      exact blLookup_mono_set _ _ _ _ _
        (by have := ttl_access_pos; omega) h
    have h2 := ih _ h1
    rw [hb] at h2
    exact h2

/-- `blacklistAll` leaves every listed record's jti blacklisted. -/
theorem blacklistAll_blacklists (l : List SessionData) (now : Nat) (s : Store) :
    ∀ sd ∈ l, blLookup ((blacklistAll l now s).2) sd.jti now = true := by
  induction l generalizing s with
  | nil => intro sd h; cases h
  | cons x xs ih =>
    intro sd hmem
    rcases hb : blacklistAll xs now ((blacklist_token x.jti none now s).2)
      with ⟨c, s2⟩
    simp only [blacklistAll, hb]
    rcases List.mem_cons.mp hmem with rfl | hmem'
    · have h1 : blLookup ((blacklist_token sd.jti none now s).2) sd.jti now
          = true := by
        rw [blacklist_token_none, blLookup_blSet, if_pos rfl]
        have := ttl_access_pos
        simp only [decide_eq_true_eq]
        omega
      have h2 := blacklistAll_preserves xs now _ sd.jti h1
      rw [hb] at h2
      exact h2
    · have h2 := ih ((blacklist_token x.jti none now s).2) sd hmem'
      rw [hb] at h2
      exact h2

/-- Double filter: first drop every key of `uid`, then keep only keys of
`uid` — nothing remains. -/
theorem filter_user_filter (uid now : Nat)
    (l : List ((Nat × String) × SessionData × Nat)) :
    ((l.filter (fun e => !(e.1.1 == uid))).filter
      (fun e => e.1.1 == uid && decide (now < e.2.2))) = [] := by
  induction l with
  | nil => rfl
  | cons x xs ih =>
    cases hx : (x.1.1 == uid) with
    | true =>
      rw [List.filter_cons]
      simp only [hx, Bool.not_true]
      rw [if_neg Bool.false_ne_true]
      exact ih
    | false =>
      rw [List.filter_cons]
      simp only [hx, Bool.not_false]
      rw [if_pos trivial]
      rw [List.filter_cons]
      simp only [hx, Bool.false_and]
      rw [if_neg Bool.false_ne_true]
      exact ih

/-- After `sessDelAllUser`, the user has no live session records. -/
theorem get_user_sessions_delAll (uid now : Nat) (s : Store) :
    get_user_sessions uid now (sessDelAllUser s uid) = [] := by
  show sortByCreatedDesc
      (((s.sessions.filter (fun e => !(e.1.1 == uid))).filter
        (fun e => e.1.1 == uid && decide (now < e.2.2))).map (fun e => e.2.1))
    = []
  rw [filter_user_filter]
  rfl

/-- The store produced by `revoke_all_user_sessions`, unfolded. -/
theorem revoke_all_store (user_id now : Nat) (s : Store) :
    (revoke_all_user_sessions user_id now s).2 =
      sessDelAllUser
        ((blacklistAll (get_user_sessions user_id now s) now s).2) user_id := by
  rcases hb : blacklistAll (get_user_sessions user_id now s) now s with ⟨c, s1⟩
  simp [revoke_all_user_sessions, hb]

/-- After `revoke_all_user_sessions`, the user has zero live sessions. -/
theorem revoke_all_clears (user_id now : Nat) (s : Store) :
    get_user_sessions user_id now ((revoke_all_user_sessions user_id now s).2)
      = [] := by
  rw [revoke_all_store]
  exact get_user_sessions_delAll user_id now _

/-- After `revoke_all_user_sessions`, every previously live session's jti
is blacklisted. -/
theorem revoke_all_blacklists (user_id now : Nat) (s : Store) :
    ∀ sd ∈ get_user_sessions user_id now s,
      is_token_blacklisted sd.jti now
        ((revoke_all_user_sessions user_id now s).2) = true := by
  intro sd hmem
  rw [revoke_all_store]
  show blLookup (sessDelAllUser _ _) sd.jti now = true
  have hdel : ∀ (st : Store) (uid : Nat) (j : String) (n : Nat),
      blLookup (sessDelAllUser st uid) j n = blLookup st j n :=
    fun _ _ _ _ => rfl
  rw [hdel]
  exact blacklistAll_blacklists _ _ _ sd hmem

/-- Decoding an encoded token with the matching secret returns the payload
whenever the `exp` claim is in the future. -/
theorem jwtDecode_jwtEncode (p : Payload) (key : String) (now e : Nat)
    (hexp : dictLookup p "exp" = some (.num e)) (h : now < e) :
    jwtDecode (jwtEncode p key) key now = some p := by
  simp [jwtDecode, jwtEncode, hexp, h]

/-- C5 counterexample: two failed login attempts for the same identifier at
times 0 and 100.  After the second failure the counter's remaining
lifetime is 800 seconds, not the full 900-second lockout window — the
second failure did not restart the TTL. -/
theorem login_ttl_not_restarted_cex :
    ((record_login_attempt "alice:addr" false 100
        ((record_login_attempt "alice:addr" false 0 emptyStore).2)).1 = 2) ∧
    ((laGet ((record_login_attempt "alice:addr" false 100
        ((record_login_attempt "alice:addr" false 0 emptyStore).2)).2)
        "alice:addr" 100).map (fun e => e.2 - 100) = some 800) ∧
    ¬ (800 = TTL_LOGIN_ATTEMPTS) := by decide

/-- C5 (amended): a failed login attempt while the failure counter is live
increments the count but keeps the counter's original expiry unchanged
(Redis `INCR` preserves the TTL), so the window is fixed at the first
failure; only the first failure of a window sets the TTL, to the full
lockout window. -/
theorem login_counter_fixed_window (id : String) (now : Nat) (s : Store) :
    (∀ c ex, laGet s id now = some (c, ex) →
      record_login_attempt id false now s = (c + 1, laSet s id (c + 1) ex)) ∧
    (laGet s id now = none →
      record_login_attempt id false now s
        = (1, laSet s id 1 (now + TTL_LOGIN_ATTEMPTS))) := by
  constructor
  · intro c ex h
    simp [record_login_attempt, h]
  · intro h
    simp [record_login_attempt, h]

/-- Witness for `login_counter_fixed_window` at a concrete live counter. -/
theorem login_counter_fixed_window_witness :
    record_login_attempt "u:addr" false 100 (laSet emptyStore "u:addr" 1 900)
      = (2, laSet (laSet emptyStore "u:addr" 1 900) "u:addr" 2 900) :=
  (login_counter_fixed_window "u:addr" 100 (laSet emptyStore "u:addr" 1 900)).1
    1 900 (by decide)

/-- C7 counterexample: a session whose token expires at time 1000 is
revoked through `revoke_session` at time 500; the blacklist entry is
written with the default one-hour TTL, so at time 2000 the token itself no
longer decodes (expired) while its blacklist entry is still alive — the
entry outlives the token it revokes. -/
theorem blacklist_outlives_token_cex :
    (jwtDecode ⟨[("exp", .num 1000), ("jti", .str "j1"), ("sub", .str "1")], "k"⟩
        "k" 2000 = none) ∧
    (is_token_blacklisted "j1" 2000
      ((revoke_session 1 "j1" 500
        (sessSet emptyStore (1, "j1")
          ⟨"j1", 1, "j1", "d", "addr", "ua", 0, 0⟩ 3600)).2) = true) := by
  decide

/-- C7 (amended): only `logout`'s direct `blacklist_token` call passes the
token's remaining validity as the TTL; `revoke_session` (and
`revoke_all_user_sessions`, which calls `blacklist_token` the same way)
blacklists with the default full access-token lifetime regardless of the
revoked token's remaining validity, so those entries can outlive the token
by up to its already-elapsed lifetime. -/
theorem blacklist_ttl_by_path (jti : String) (ttl now : Nat) (s : Store)
    (uid : Nat) (sid : String) (sd : SessionData)
    (ht : 0 < ttl) (hsess : get_session uid sid now s = some sd) :
    (((blacklist_token jti (some ttl) now s).2).blacklist.find?
        (fun e => e.1 == jti) = some (jti, now + ttl)) ∧
    (((revoke_session uid sid now s).2).blacklist.find?
        (fun e => e.1 == sd.jti) = some (sd.jti, now + TTL_ACCESS_TOKEN)) := by
  constructor
  · rw [blacklist_token_some _ _ _ _ (by omega)]
    show ((jti, now + ttl) :: _).find? _ = _
    rw [List.find?_cons_of_pos _ (by simp)]
  · simp only [revoke_session, hsess]
    rw [blacklist_token_none]
    show ((sd.jti, now + TTL_ACCESS_TOKEN) :: _).find? _ = _
    rw [List.find?_cons_of_pos _ (by simp)]

/-- Witness for `blacklist_ttl_by_path` at a concrete session. -/
theorem blacklist_ttl_by_path_witness :
    (((blacklist_token "x" (some 50) 10
        (sessSet emptyStore (1, "j1")
          ⟨"j1", 1, "j1", "d", "addr", "ua", 0, 0⟩ 3600)).2).blacklist.find?
        (fun e => e.1 == "x") = some ("x", 60)) ∧
    (((revoke_session 1 "j1" 10
        (sessSet emptyStore (1, "j1")
          ⟨"j1", 1, "j1", "d", "addr", "ua", 0, 0⟩ 3600)).2).blacklist.find?
        (fun e => e.1 == "j1") = some ("j1", 3610)) :=
  blacklist_ttl_by_path "x" 50 10
    (sessSet emptyStore (1, "j1")
      ⟨"j1", 1, "j1", "d", "addr", "ua", 0, 0⟩ 3600) 1 "j1"
    ⟨"j1", 1, "j1", "d", "addr", "ua", 0, 0⟩ (by decide) (by decide)

/-- C8 counterexample: an access token that fails to decode (signed with a
different key) presented to the logout endpoint is rejected with an
`invalidToken` error by the authentication dependency — logout does not
complete without error. -/
theorem logout_undecodable_rejected_cex :
    logout_endpoint ⟨[("sub", .str "1")], "other"⟩ "k"
        [⟨1, "alice", "h", "employee", 1, 0, true⟩] 0 emptyStore
      = (.error .invalidToken, emptyStore) := by decide

/-- C8 (amended): the logout handler body itself ignores decode failure —
it performs no revocation and no session removal and raises nothing — but
the endpoint's `get_current_active_user` dependency validates the same
bearer token first, so a token that fails to decode is rejected with
`invalidToken` before the body runs. -/
theorem logout_gate_vs_body (tok : Token) (secret : String)
    (db : List UserRec) (uid now : Nat) (s : Store)
    (h : jwtDecode tok secret now = none) :
    logout_body tok secret uid now s = s ∧
    logout_endpoint tok secret db now s = (.error .invalidToken, s) := by
  constructor
  · simp [logout_body, h]
  · simp [logout_endpoint, get_current_active_user, get_current_user, h]

/-- Witness for `logout_gate_vs_body` at a concretely undecodable token. -/
theorem logout_gate_vs_body_witness :
    logout_body ⟨[("sub", .str "1")], "other"⟩ "k" 1 0 emptyStore = emptyStore ∧
    logout_endpoint ⟨[("sub", .str "1")], "other"⟩ "k" [] 0 emptyStore
      = (.error .invalidToken, emptyStore) :=
  logout_gate_vs_body ⟨[("sub", .str "1")], "other"⟩ "k" [] 1 0 emptyStore
    (by decide)

/-- C9 counterexample: issuing a token over the empty claims set with a
positive ttl and decoding it does not return the claims set that was
passed in — the decoded payload also carries `exp`, `jti`, `iat` and
`type`, so it differs from the input as a dict. -/
theorem decode_issue_not_identity_cex :
    (jwtDecode (create_access_token [] (some 100) "j" 0 "k") "k" 0).map
        (fun p => dictEq p []) = some false := by decide

/-- C9 (amended): for every claims set and positive ttl, decoding the
issued token succeeds and returns the claims set extended with the
reserved claims `exp`, `jti`, `iat` and `type`; on every other key the
decoded payload agrees with the input claims set. -/
theorem decode_issue_extends_claims (data : Payload) (ttl : Nat)
    (jti : String) (now : Nat) (secret : String) (h : 0 < ttl) :
    (jwtDecode (create_access_token data (some ttl) jti now secret) secret now
      = some (dictSet (dictSet (dictSet (dictSet data "exp" (.num (now + ttl)))
          "jti" (.str jti)) "iat" (.num now)) "type" (.str "access"))) ∧
    (∀ k, ¬ k = "exp" → ¬ k = "jti" → ¬ k = "iat" → ¬ k = "type" →
      dictLookup (dictSet (dictSet (dictSet (dictSet data "exp"
          (.num (now + ttl))) "jti" (.str jti)) "iat" (.num now))
          "type" (.str "access")) k = dictLookup data k) := by
  constructor
  · have hexp : dictLookup (dictSet (dictSet (dictSet (dictSet data "exp"
        (.num (now + ttl))) "jti" (.str jti)) "iat" (.num now))
        "type" (.str "access")) "exp" = some (.num (now + ttl)) := by
      rw [dictLookup_dictSet, if_neg (by decide), dictLookup_dictSet,
        if_neg (by decide), dictLookup_dictSet, if_neg (by decide),
        dictLookup_dictSet, if_pos rfl]
    exact jwtDecode_jwtEncode _ secret now (now + ttl) hexp (by omega)
  · intro k h1 h2 h3 h4
    rw [dictLookup_dictSet, if_neg h4, dictLookup_dictSet, if_neg h3,
      dictLookup_dictSet, if_neg h2, dictLookup_dictSet, if_neg h1]

/-- Witness for `decode_issue_extends_claims` at a concrete claims set. -/
theorem decode_issue_extends_claims_witness :
    (jwtDecode (create_access_token [("sub", .str "1")] (some 100) "j" 0 "k")
        "k" 0
      = some (dictSet (dictSet (dictSet (dictSet [("sub", .str "1")] "exp"
          (.num 100)) "jti" (.str "j")) "iat" (.num 0))
          "type" (.str "access"))) ∧
    (dictLookup (dictSet (dictSet (dictSet (dictSet [("sub", .str "1")] "exp"
          (.num 100)) "jti" (.str "j")) "iat" (.num 0))
          "type" (.str "access")) "sub"
      = dictLookup [("sub", .str "1")] "sub") := by
  have h := decode_issue_extends_claims [("sub", .str "1")] 100 "j" 0 "k"
    (by decide)
  exact ⟨h.1, h.2 "sub" (by decide) (by decide) (by decide) (by decide)⟩

/-- The user, user table and shared refresh token of the race scenario. -/
def raceUser : UserRec := ⟨1, "alice", "hash", "employee", 1, 0, true⟩

def raceDb : List UserRec := [raceUser]

def raceTok : Token := create_refresh_token (token_data raceUser) "r1" 0 "k"

/-- Concurrent call A: runs to completion from the shared initial store. -/
def raceCallA : Except AuthError (Token × Token) × Store :=
  refresh_token raceTok "k" raceDb "a1" "r2" "addr" "ua" 10 emptyStore

/-- Concurrent call B: its single reuse-check read happened against the
shared initial store, before call A's `mark_refresh_token_used` write, so
the value it observed is `is_refresh_token_used "r1" 10 emptyStore`
(= `false`); its writes then land on the store call A produced. -/
def raceCallB : Except AuthError (Token × Token) × Store :=
  refreshAfterCheck false raceTok.payload "k" raceDb "a3" "r4" "addr" "ua" 10
    raceCallA.2

/-- C2: the refresh-consume step in the source is a plain `EXISTS` read
(`is_refresh_token_used`) followed later by a separate `SETEX` write
(`mark_refresh_token_used`), not one atomic conditional write.  In the
interleaving read(A), read(B), write(A), write(B) both concurrent calls
presenting the same refresh token observe it as unused and both succeed —
even though the token is already marked used by the time call B commits. -/
theorem refresh_consume_race :
    (is_refresh_token_used "r1" 10 emptyStore = false) ∧
    (exceptOk raceCallA.1 = true) ∧
    (is_refresh_token_used "r1" 10 raceCallA.2 = true) ∧
    (exceptOk raceCallB.1 = true) := by decide

/-- A sequence of failed login attempts at the given times. -/
def recordFailures (identifier : String) : List Nat → Store → Store
  | [], s => s
  | t :: ts, s =>
      recordFailures identifier ts (record_login_attempt identifier false t s).2

/-- `find?` after `laSet` at the written key. -/
theorem laFind_laSet_self (s : Store) (id : String) (c ex : Nat) :
    (laSet s id c ex).loginAttempts.find? (fun e => e.1 == id)
      = some (id, c, ex) := by
  show ((id, c, ex) :: _).find? _ = _
  rw [List.find?_cons_of_pos _ (by simp)]

/-- The first failure of a window sets the counter to 1 with the full
lockout-window TTL. -/
theorem record_first_failure (id : String) (t : Nat) (s : Store)
    (hfresh : s.loginAttempts.find? (fun e => e.1 == id) = none) :
    record_login_attempt id false t s
      = (1, laSet s id 1 (t + TTL_LOGIN_ATTEMPTS)) := by
  have h : laGet s id t = none := by
    unfold laGet
    rw [hfresh]
  simp [record_login_attempt, h]

/-- Failures recorded while the counter is live increment the count and
keep the counter's expiry unchanged. -/
theorem recordFailures_live (id : String) (ts : List Nat) (c ex : Nat)
    (s : Store) (hwin : ∀ t ∈ ts, t < ex)
    (hla : s.loginAttempts.find? (fun e => e.1 == id) = some (id, c, ex)) :
    (recordFailures id ts s).loginAttempts.find? (fun e => e.1 == id)
      = some (id, c + ts.length, ex) := by
  induction ts generalizing s c with
  | nil => simpa using hla
  | cons t ts ih =>
    have hlive : laGet s id t = some (c, ex) := by
      unfold laGet
      rw [hla]
      simp [hwin t (by simp)]
    have hrec : record_login_attempt id false t s
        = (c + 1, laSet s id (c + 1) ex) := by
      simp [record_login_attempt, hlive]
    show (recordFailures id ts
      (record_login_attempt id false t s).2).loginAttempts.find? _ = _
    rw [hrec]
    have h2 := ih (c + 1) (laSet s id (c + 1) ex)
      (fun t' ht' => hwin t' (by simp [ht']))
      (laFind_laSet_self s id (c + 1) ex)
    rw [h2]
    congr 2
    simp [List.length_cons]
    omega

/-- C6: after five failed login attempts within the lockout window for the
same username/address identifier, a sixth attempt inside the window is
rejected with `loginLocked` carrying the remaining block time, for every
database and every credential verifier — the locked branch runs before any
user lookup or password check, and it leaves the store unchanged; and one
successful login attempt while not blocked succeeds and resets the failure
counter to zero. -/
theorem login_lockout_and_reset (userName addr : String) (t1 : Nat)
    (ts : List Nat) (t6 : Nat) (s0 : Store)
    (hfresh : s0.loginAttempts.find?
      (fun e => e.1 == userName ++ ":" ++ addr) = none)
    (hlen : ts.length = 4)
    (hwin : ∀ t ∈ ts, t < t1 + TTL_LOGIN_ATTEMPTS)
    (h6 : t6 < t1 + TTL_LOGIN_ATTEMPTS) :
    (∀ pw ua db verify secret aj rj,
      login userName pw addr ua db verify secret aj rj t6
          (recordFailures (userName ++ ":" ++ addr) ts
            (record_login_attempt (userName ++ ":" ++ addr) false t1 s0).2)
        = (.error (.loginLocked (t1 + TTL_LOGIN_ATTEMPTS - t6)),
            recordFailures (userName ++ ":" ++ addr) ts
              (record_login_attempt (userName ++ ":" ++ addr) false t1 s0).2)) ∧
    (∀ (s : Store) (now : Nat) pw ua db verify secret aj rj (u : UserRec),
      is_login_blocked (userName ++ ":" ++ addr) now s = false →
      findByUsername db userName = some u →
      verify pw u.password_hash = true →
      u.is_active = true →
      exceptOk (login userName pw addr ua db verify secret aj rj now s).1
          = true ∧
      (∀ t2, get_login_attempts (userName ++ ":" ++ addr) t2
        (login userName pw addr ua db verify secret aj rj now s).2 = 0)) := by
  constructor
  · have hfind1 : ((record_login_attempt (userName ++ ":" ++ addr) false t1
        s0).2).loginAttempts.find? (fun e => e.1 == userName ++ ":" ++ addr)
        = some (userName ++ ":" ++ addr, 1, t1 + TTL_LOGIN_ATTEMPTS) := by
      rw [record_first_failure _ _ _ hfresh]
      exact laFind_laSet_self s0 _ 1 (t1 + TTL_LOGIN_ATTEMPTS)
    have h5 := recordFailures_live (userName ++ ":" ++ addr) ts 1
      (t1 + TTL_LOGIN_ATTEMPTS) _ hwin hfind1
    rw [hlen] at h5
    have hla6 : laGet (recordFailures (userName ++ ":" ++ addr) ts
        (record_login_attempt (userName ++ ":" ++ addr) false t1 s0).2)
        (userName ++ ":" ++ addr) t6 = some (5, t1 + TTL_LOGIN_ATTEMPTS) := by
      unfold laGet
      rw [h5]
      simp [h6]
    have hblocked : is_login_blocked (userName ++ ":" ++ addr) t6
        (recordFailures (userName ++ ":" ++ addr) ts
          (record_login_attempt (userName ++ ":" ++ addr) false t1 s0).2)
        = true := by
      simp [is_login_blocked, get_login_attempts, hla6, MAX_LOGIN_ATTEMPTS]
    have httl : get_login_block_ttl (userName ++ ":" ++ addr) t6
        (recordFailures (userName ++ ":" ++ addr) ts
          (record_login_attempt (userName ++ ":" ++ addr) false t1 s0).2)
        = t1 + TTL_LOGIN_ATTEMPTS - t6 := by
      simp [get_login_block_ttl, hblocked, hla6]
    intro pw ua db verify secret aj rj
    simp [login, hblocked, httl]
  · intro s now pw ua db verify secret aj rj u hnb hfindu hver hact
    constructor
    · simp [login, hnb, hfindu, hver, hact, exceptOk]
    · intro t2
      have hnone : List.find? (fun (_ : String × Nat × Nat) => false)
          s.loginAttempts = none :=
        List.find?_eq_none.mpr (fun x _ => by simp)
      simp [login, hnb, hfindu, hver, hact, get_login_attempts, laGet,
        record_login_attempt, create_session, sessSet, laDel,
        kv_find_filter_self, hnone]

/-- Witness for `login_lockout_and_reset`: five failures at times 0..4,
a locked sixth attempt at time 5, and a successful reset run. -/
theorem login_lockout_and_reset_witness :
    (login "alice" "pw" "addr" "ua" [⟨1, "alice", "h", "employee", 1, 0, true⟩]
        (fun _ _ => true) "k" "aj" "rj" 5
        (recordFailures ("alice" ++ ":" ++ "addr") [1, 2, 3, 4]
          (record_login_attempt ("alice" ++ ":" ++ "addr") false 0
            emptyStore).2)
      = (.error (.loginLocked 895),
          recordFailures ("alice" ++ ":" ++ "addr") [1, 2, 3, 4]
            (record_login_attempt ("alice" ++ ":" ++ "addr") false 0
              emptyStore).2)) ∧
    (exceptOk (login "alice" "pw" "addr" "ua"
        [⟨1, "alice", "h", "employee", 1, 0, true⟩]
        (fun _ _ => true) "k" "aj" "rj" 0 emptyStore).1 = true) := by
  have h := login_lockout_and_reset "alice" "addr" 0 [1, 2, 3, 4] 5 emptyStore
    (by decide) (by decide) (by decide) (by decide)
  refine ⟨?_, ?_⟩
  · exact h.1 "pw" "ua" [⟨1, "alice", "h", "employee", 1, 0, true⟩]
      (fun _ _ => true) "k" "aj" "rj"
  · exact (h.2 emptyStore 0 "pw" "ua"
      [⟨1, "alice", "h", "employee", 1, 0, true⟩] (fun _ _ => true) "k"
      "aj" "rj" ⟨1, "alice", "h", "employee", 1, 0, true⟩
      (by decide) (by decide) (by decide) (by decide)).1

/-- One refresh call on a payload with no `jti` claim: both the reuse check
and the mark-as-used write are skipped, and the call succeeds, touching
only the session namespace. -/
theorem refresh_nojti_step (tok : Token) (secret : String)
    (db : List UserRec) (ip ua : String) (now : Nat) (p : Payload)
    (sv : JVal) (uid : Nat) (u : UserRec)
    (hdec : jwtDecode tok secret now = some p)
    (htype : dictLookup p "type" = some (.str "refresh"))
    (hjti : dictLookup p "jti" = none)
    (hsub : dictLookup p "sub" = some sv)
    (hnat : subToNat sv = some uid)
    (hfind : findById db uid = some u)
    (hact : u.is_active = true)
    (hver : versionMatches p u.token_version = true)
    (aj rj : String) (s : Store) :
    refresh_token tok secret db aj rj ip ua now s
      = (.ok (create_access_token (token_data u) none aj now secret,
              create_refresh_token (token_data u) rj now secret),
         (create_session u.id aj (deviceOf ua) ip ua now s).2) := by
  have hgj : getJti p = none := by simp [getJti, hjti]
  simp [refresh_token, hdec, htype, hgj, refreshAfterCheck, hsub, hnat,
    hfind, hact, hver]

/-- `n` successive refresh calls with the same token, each checked for
success. -/
def iterRefreshOk (tok : Token) (secret : String) (db : List UserRec)
    (ip ua : String) (now : Nat) (jtis : Nat → String × String) :
    Nat → Store → Bool
  | 0, _ => true
  | n + 1, s =>
      exceptOk (refresh_token tok secret db (jtis n).1 (jtis n).2 ip ua
          now s).1
        && iterRefreshOk tok secret db ip ua now jtis n
             (refresh_token tok secret db (jtis n).1 (jtis n).2 ip ua now s).2

/-- C10: a refresh token whose decoded payload has no `jti` claim skips
both the already-used check and the mark-as-used step: for an active user
with matching token version the call always succeeds (never rejected as
reused, and the refresh-used and blacklist namespaces are untouched, so
the mass-revoke breach response never fires), each redemption issues a
fresh access/refresh pair and a new session, and any number of repeated
redemptions all succeed. -/
theorem refresh_missing_jti_unbounded (tok : Token) (secret : String)
    (db : List UserRec) (ip ua : String) (now : Nat) (p : Payload)
    (sv : JVal) (uid : Nat) (u : UserRec)
    (hdec : jwtDecode tok secret now = some p)
    (htype : dictLookup p "type" = some (.str "refresh"))
    (hjti : dictLookup p "jti" = none)
    (hsub : dictLookup p "sub" = some sv)
    (hnat : subToNat sv = some uid)
    (hfind : findById db uid = some u)
    (hact : u.is_active = true)
    (hver : versionMatches p u.token_version = true) :
    (∀ aj rj s, refresh_token tok secret db aj rj ip ua now s
      = (.ok (create_access_token (token_data u) none aj now secret,
              create_refresh_token (token_data u) rj now secret),
         (create_session u.id aj (deviceOf ua) ip ua now s).2)) ∧
    (∀ aj rj (s : Store),
      ((refresh_token tok secret db aj rj ip ua now s).2).refreshUsed
          = s.refreshUsed ∧
      ((refresh_token tok secret db aj rj ip ua now s).2).blacklist
          = s.blacklist) ∧
    (∀ jtis n s, iterRefreshOk tok secret db ip ua now jtis n s = true) := by
  have step := refresh_nojti_step tok secret db ip ua now p sv uid u hdec
    htype hjti hsub hnat hfind hact hver
  refine ⟨step, ?_, ?_⟩
  · intro aj rj s
    rw [step aj rj s]
    exact ⟨rfl, rfl⟩
  · intro jtis n
    induction n with
    | zero => intro s; rfl
    | succ n ih =>
      intro s
      show (exceptOk _ && _) = true
      rw [step (jtis n).1 (jtis n).2 s]
      simp only [exceptOk, Bool.true_and]
      exact ih _

/-- Witness for `refresh_missing_jti_unbounded`: a concrete jti-less
refresh payload redeemed once and then three times in a row. -/
theorem refresh_missing_jti_unbounded_witness :
    (refresh_token
        ⟨[("sub", .str "1"), ("version", .num 0), ("type", .str "refresh")],
          "k"⟩ "k" [⟨1, "alice", "h", "employee", 1, 0, true⟩] "a" "r"
        "addr" "ua" 5 emptyStore
      = (.ok (create_access_token
            (token_data ⟨1, "alice", "h", "employee", 1, 0, true⟩) none "a"
            5 "k",
          create_refresh_token
            (token_data ⟨1, "alice", "h", "employee", 1, 0, true⟩) "r" 5 "k"),
         (create_session 1 "a" (deviceOf "ua") "addr" "ua" 5
            emptyStore).2)) ∧
    (iterRefreshOk
        ⟨[("sub", .str "1"), ("version", .num 0), ("type", .str "refresh")],
          "k"⟩ "k" [⟨1, "alice", "h", "employee", 1, 0, true⟩] "addr" "ua" 5
        (fun _ => ("a", "r")) 3 emptyStore = true) := by
  have h := refresh_missing_jti_unbounded
    ⟨[("sub", .str "1"), ("version", .num 0), ("type", .str "refresh")], "k"⟩
    "k" [⟨1, "alice", "h", "employee", 1, 0, true⟩] "addr" "ua" 5
    [("sub", .str "1"), ("version", .num 0), ("type", .str "refresh")]
    (.str "1") 1 ⟨1, "alice", "h", "employee", 1, 0, true⟩
    (by decide) (by decide) (by decide) (by decide) (by decide) (by decide)
    (by decide) (by decide)
  exact ⟨h.1 "a" "r" emptyStore, h.2.2 (fun _ => ("a", "r")) 3 emptyStore⟩

/-- The already-redeemed refresh token, its owner's session, and the store
of the C1 witness scenario: jti `r1` is marked used, and the user has one
live session `a0`. -/
def c1Tok : Token :=
  ⟨[("type", .str "refresh"), ("jti", .str "r1"), ("sub", .str "1"),
    ("version", .num 0)], "k"⟩

def c1Store : Store :=
  ⟨[], [((1, "a0"), ⟨"a0", 1, "a0", "d", "addr", "ua", 0, 0⟩, 3600)],
   [("r1", 999999)], []⟩

/-- C1: presenting a refresh token whose jti is already marked used is
rejected with `refreshReuseDetected`, and the store returned with the
error is exactly the store after `revoke_all_user_sessions` of the owning
user — the mass revoke has already happened when the error is observed;
afterwards the owner has zero live sessions, and every session that was
live at the time of the attempt has its jti blacklisted. -/
theorem refresh_reuse_revokes_all (tok : Token) (secret : String)
    (db : List UserRec) (aj rj ip ua : String) (now : Nat) (s : Store)
    (p : Payload) (j : String) (sv : JVal) (uid : Nat)
    (hdec : jwtDecode tok secret now = some p)
    (htype : dictLookup p "type" = some (.str "refresh"))
    (hjti : getJti p = some j)
    (hused : is_refresh_token_used j now s = true)
    (hsub : dictLookup p "sub" = some sv)
    (htr : truthy sv = true)
    (hnat : subToNat sv = some uid) :
    refresh_token tok secret db aj rj ip ua now s
      = (.error .refreshReuseDetected,
         (revoke_all_user_sessions uid now s).2) ∧
    get_user_sessions uid now ((revoke_all_user_sessions uid now s).2)
      = [] ∧
    ∀ sd ∈ get_user_sessions uid now s,
      is_token_blacklisted sd.jti now
        ((revoke_all_user_sessions uid now s).2) = true := by
  refine ⟨?_, revoke_all_clears uid now s, revoke_all_blacklists uid now s⟩
  simp [refresh_token, hdec, htype, hjti, hused, refreshAfterCheck, hsub,
    htr, hnat]

/-- Witness for `refresh_reuse_revokes_all` at the concrete scenario. -/
theorem refresh_reuse_revokes_all_witness :
    (refresh_token c1Tok "k" [⟨1, "alice", "h", "employee", 1, 0, true⟩]
        "na" "nr" "addr" "ua" 10 c1Store
      = (.error .refreshReuseDetected,
         (revoke_all_user_sessions 1 10 c1Store).2)) ∧
    (get_user_sessions 1 10 ((revoke_all_user_sessions 1 10 c1Store).2)
      = []) ∧
    (is_token_blacklisted "a0" 10 ((revoke_all_user_sessions 1 10
        c1Store).2) = true) := by
  have h := refresh_reuse_revokes_all c1Tok "k"
    [⟨1, "alice", "h", "employee", 1, 0, true⟩] "na" "nr" "addr" "ua" 10
    c1Store c1Tok.payload "r1" (.str "1") 1
    (by decide) (by decide) (by decide) (by decide) (by decide) (by decide)
    (by decide)
  exact ⟨h.1, h.2.1,
    h.2.2 ⟨"a0", 1, "a0", "d", "addr", "ua", 0, 0⟩ (by decide)⟩

/-- A payload matching a user's version does not match the incremented
version. -/
theorem versionMatches_succ (p : Payload) (tv : Nat)
    (h : versionMatches p tv = true) :
    versionMatches p (tv + 1) = false := by
  cases hl : dictLookup p "version" with
  | none =>
    unfold versionMatches at h ⊢
    rw [hl] at h ⊢
    simp
  | some v =>
    unfold versionMatches at h ⊢
    rw [hl] at h ⊢
    cases v with
    | str sv => simp at h
    | num n =>
      simp at h ⊢
      omega

/-- C3 counterexample: a token whose embedded version (1) differs from the
user's current version (2) but whose jti is blacklisted is rejected by
request validation with `revokedToken`, not the distinct `versionStale`
error — the version check is not reached, so the rejection kind is not
independent of blacklist status. -/
theorem version_stale_not_before_blacklist_cex :
    (versionMatches [("sub", .str "1"), ("version", .num 1),
        ("jti", .str "j1"), ("exp", .num 100), ("type", .str "access")] 2
      = false) ∧
    (get_current_user
        ⟨[("sub", .str "1"), ("version", .num 1), ("jti", .str "j1"),
          ("exp", .num 100), ("type", .str "access")], "k"⟩ "k"
        [⟨1, "alice", "h", "employee", 1, 2, true⟩] 10
        (blSet emptyStore "j1" 50)
      = (.error .revokedToken, blSet emptyStore "j1" 50)) := by decide

/-- C3 (amended): for every token that decodes successfully (valid
signature, unexpired) and whose jti is not currently blacklisted,
presented for an existing active user, an embedded version differing in
any way from the user's current token version is rejected by request
validation with the distinct `versionStale` error; a token that fails to
decode is rejected with the decode error `invalidToken` instead; and a
successful password change increments the user's token version by one, so
a payload matching the pre-change version no longer matches afterwards —
hence every token issued before any number of password changes is
version-stale when not blacklisted. -/
theorem version_stale_on_mismatch :
    (∀ (tok : Token) (secret : String) (db : List UserRec) (now : Nat)
        (s : Store) (p : Payload) (sv : JVal) (uid : Nat) (u : UserRec),
      jwtDecode tok secret now = some p →
      (∀ j, getJti p = some j → is_token_blacklisted j now s = false) →
      dictLookup p "sub" = some sv →
      subToNat sv = some uid →
      findById db uid = some u →
      u.is_active = true →
      versionMatches p u.token_version = false →
      get_current_user tok secret db now s = (.error .versionStale, s)) ∧
    (∀ (tok : Token) (secret : String) (db : List UserRec) (now : Nat)
        (s : Store),
      jwtDecode tok secret now = none →
      get_current_user tok secret db now s = (.error .invalidToken, s)) ∧
    (∀ (u u' : UserRec) (cnt : Nat) (oldPw newPw : String)
        (verify : String → String → Bool) (hash : String → String)
        (now0 : Nat) (s0 : Store),
      (change_password u oldPw newPw verify hash now0 s0).1 = .ok (u', cnt) →
      u'.token_version = u.token_version + 1 ∧
      (∀ p, versionMatches p u.token_version = true →
        versionMatches p u'.token_version = false)) := by
  refine ⟨?_, ?_, ?_⟩
  · intro tok secret db now s p sv uid u hdec hbl hsub hnat hfind hact hver
    cases hgj : getJti p with
    | some j =>
      have hb : blLookup s j now = false := hbl j hgj
      simp [get_current_user, hdec, hgj, hb, is_token_blacklisted, hsub,
        hnat, hfind, hact, hver]
    | none =>
      simp [get_current_user, hdec, hgj, hsub, hnat, hfind, hact, hver]
  · intro tok secret db now s h
    simp [get_current_user, h]
  · intro u u' cnt oldPw newPw verify hash now0 s0 hcp
    have hu' : u'.token_version = u.token_version + 1 := by
      rcases hr : revoke_all_user_sessions u.id now0 s0 with ⟨c0, s1⟩
      by_cases h1 : verify oldPw u.password_hash
      · by_cases h2 : verify newPw u.password_hash
        · simp [change_password, h1, h2] at hcp
        · by_cases h3 : newPw.length < 8
          · simp [change_password, h1, h2, h3] at hcp
          · simp [change_password, h1, h2, h3, hr] at hcp
            rw [← hcp.1]
      · simp [change_password, h1] at hcp
    refine ⟨hu', fun p hp => ?_⟩
    rw [hu']
    exact versionMatches_succ p u.token_version hp

/-- Witness for `version_stale_on_mismatch`: a token two versions stale
(embedded 3, current 5) is rejected `versionStale`; an undecodable token
is rejected `invalidToken`; and a concrete password change bumps the
version from 0 to 1, after which a version-0 payload no longer matches. -/
theorem version_stale_on_mismatch_witness :
    (get_current_user
        ⟨[("sub", .str "1"), ("version", .num 3), ("type", .str "access")],
          "k"⟩ "k"
        [⟨1, "alice", "h", "employee", 1, 5, true⟩] 7 emptyStore
      = (.error .versionStale, emptyStore)) ∧
    (get_current_user ⟨[("sub", .str "1")], "other"⟩ "k" [] 0 emptyStore
      = (.error .invalidToken, emptyStore)) ∧
    ((⟨1, "alice", "Hnewpassword", "employee", 1, 1, true⟩ :
        UserRec).token_version
      = (⟨1, "alice", "old", "employee", 1, 0, true⟩ :
        UserRec).token_version + 1) ∧
    (versionMatches [("version", .num 0)]
        (⟨1, "alice", "Hnewpassword", "employee", 1, 1, true⟩ :
          UserRec).token_version = false) := by
  have h := version_stale_on_mismatch
  have hcp := h.2.2 ⟨1, "alice", "old", "employee", 1, 0, true⟩
    ⟨1, "alice", "Hnewpassword", "employee", 1, 1, true⟩ 0
    "old" "newpassword" (fun a b => a == b) (fun x => "H" ++ x) 3 emptyStore
    (by decide)
  refine ⟨?_, ?_, hcp.1, ?_⟩
  · exact h.1
      ⟨[("sub", .str "1"), ("version", .num 3), ("type", .str "access")],
        "k"⟩ "k"
      [⟨1, "alice", "h", "employee", 1, 5, true⟩] 7 emptyStore
      [("sub", .str "1"), ("version", .num 3), ("type", .str "access")]
      (.str "1") 1 ⟨1, "alice", "h", "employee", 1, 5, true⟩
      (by decide)
      (by
        intro j hj
        rw [show getJti [("sub", .str "1"), ("version", .num 3),
          ("type", .str "access")] = none from by decide] at hj
        cases hj)
      (by decide) (by decide) (by decide) (by decide) (by decide)
  · exact h.2.1 ⟨[("sub", .str "1")], "other"⟩ "k" [] 0 emptyStore (by decide)
  · exact hcp.2 [("version", .num 0)] (by decide)

/-- A token that decodes at one time decodes to the same payload at any
time before its `exp` claim. -/
theorem jwtDecode_any_time (tok : Token) (key : String) (t0 t : Nat)
    (p : Payload) (e : Nat) (hdec : jwtDecode tok key t0 = some p)
    (hexp : dictLookup p "exp" = some (.num e)) (ht : t < e) :
    jwtDecode tok key t = some p := by
  by_cases hk : tok.key == key
  · cases hl : dictLookup tok.payload "exp" with
    | none =>
      unfold jwtDecode at hdec
      rw [hl] at hdec
      simp [hk] at hdec
      rw [← hdec] at hexp
      rw [hl] at hexp
      cases hexp
    | some v =>
      cases v with
      | str sv =>
        unfold jwtDecode at hdec
        rw [hl] at hdec
        simp [hk] at hdec
      | num ev =>
        unfold jwtDecode at hdec ⊢
        rw [hl] at hdec ⊢
        by_cases hlt : t0 < ev
        · simp [hk, hlt] at hdec
          rw [← hdec] at hexp
          rw [hl] at hexp
          have hev : ev = e := by
            cases hexp
            rfl
          simp [hk, hev, ht]
          exact hdec
        · simp [hk, hlt] at hdec
  · unfold jwtDecode at hdec
    simp [hk] at hdec

/-- C4: after a successfully completed logout of a decodable access token
carrying a jti and a future expiry within the access-token lifetime, every
subsequent request validation of that token before its natural expiry is
rejected with `revokedToken` — for any user database, since the blacklist
check runs before the user lookup — and the failing validation leaves the
store unchanged, so this holds for every subsequent call. -/
theorem logout_then_revoked (tok : Token) (secret : String)
    (db : List UserRec) (t0 : Nat) (s0 s1 : Store) (p : Payload)
    (j : String) (e : Nat)
    (hdec : jwtDecode tok secret t0 = some p)
    (hjti : getJti p = some j)
    (hexp : dictLookup p "exp" = some (.num e))
    (hlt : t0 < e)
    (hbound : e ≤ t0 + TTL_ACCESS_TOKEN)
    (hout : logout_endpoint tok secret db t0 s0 = (.ok (), s1)) :
    ∀ (t : Nat) (db2 : List UserRec), t < e →
      get_current_user tok secret db2 t s1 = (.error .revokedToken, s1) := by
  rcases hg : get_current_active_user tok secret db t0 s0 with ⟨r, sg⟩
  unfold logout_endpoint at hout
  rw [hg] at hout
  cases r with
  | error err => simp at hout
  | ok u =>
    simp at hout
    intro t db2 ht
    have hdect : jwtDecode tok secret t = some p :=
      jwtDecode_any_time tok secret t0 t p e hdec hexp ht
    have hbl : blLookup s1 j t = true := by
      rw [← hout]
      unfold logout_body
      rw [hdec]
      dsimp only
      rw [hjti]
      dsimp only
      have hge : get_token_expiry p = some e := by
        unfold get_token_expiry
        rw [hexp]
        simp
        omega
      rw [hge]
      dsimp only
      rw [if_pos (show decide (0 < e - t0) = true by
        simp only [decide_eq_true_eq]; omega)]
      rw [blacklist_token_some j (e - t0) t0 sg (by omega)]
      dsimp only
      have he : t0 + (e - t0) = e := by omega
      rw [he]
      unfold revoke_session
      dsimp only
      cases hgs : get_session u.id j t0 (blSet sg j e) with
      | none =>
        show blLookup (blSet sg j e) j t = true
        rw [blLookup_blSet, if_pos rfl]
        simpa using ht
      | some sd =>
        dsimp only
        rw [blacklist_token_none]
        show blLookup
          (blSet (blSet sg j e) sd.jti (t0 + TTL_ACCESS_TOKEN)) j t = true
        apply blLookup_mono_set _ _ _ _ _ (by omega)
        rw [blLookup_blSet, if_pos rfl]
        simpa using ht
    simp [get_current_user, hdect, hjti, is_token_blacklisted, hbl]

/-- Witness for `logout_then_revoked`: the concrete token `j1` is logged
out at time 100 and validation at time 2000 (before its expiry 3600)
returns `revokedToken`. -/
theorem logout_then_revoked_witness :
    get_current_user
        ⟨[("sub", .str "1"), ("version", .num 0), ("jti", .str "j1"),
          ("exp", .num 3600), ("type", .str "access")], "k"⟩ "k" [] 2000
        ⟨[("j1", 3700)], [], [], []⟩
      = (.error .revokedToken, ⟨[("j1", 3700)], [], [], []⟩) :=
  logout_then_revoked
    ⟨[("sub", .str "1"), ("version", .num 0), ("jti", .str "j1"),
      ("exp", .num 3600), ("type", .str "access")], "k"⟩ "k"
    [⟨1, "alice", "h", "employee", 1, 0, true⟩] 100
    ((create_session 1 "j1" "d" "addr" "ua" 0 emptyStore).2)
    ⟨[("j1", 3700)], [], [], []⟩
    [("sub", .str "1"), ("version", .num 0), ("jti", .str "j1"),
      ("exp", .num 3600), ("type", .str "access")] "j1" 3600
    (by decide) (by decide) (by decide) (by decide) (by decide) (by decide)
    2000 [] (by decide)
